import Mathlib

/-!
Formal model of the positioning core of `cognitive_mission_pnt.py`.

The numeric semantics: the Python code computes with IEEE doubles; here all
arithmetic is exact rational arithmetic (`ℚ`), and the mathematical-library
primitives the code calls (`math.sqrt`, `math.sin`, `math.cos`, `math.atan2`,
`math.radians`, `math.degrees`, and `np.linalg.lstsq`) are taken as explicit
oracle parameters (`FloatOps`, `LstsqFn`), since their values are transcendental
and not representable in `ℚ`.  Structural and control-flow properties are proved
for every oracle; concrete witnesses instantiate the oracles with executable
stand-ins that agree with the real functions on the inputs actually exercised.
`np.linalg.lstsq` raising an exception (which `solve_pnt` catches with
`except Exception: return None`) is modelled by the oracle returning `none`.
-/

namespace CrownPnt

set_option allowUnsafeReducibility true in
attribute [semireducible] Rat.add Rat.mul Rat.sub Rat.inv

/-- Bisection helper for an executable natural-number square root: maintains
`lo ≤ answer ≤ hi`; the fuel bounds the number of halvings. -/
def sqrtAux (n : Nat) : Nat → Nat → Nat → Nat
  | 0, lo, _ => lo
  | f + 1, lo, hi =>
    if hi ≤ lo then lo
    else
      let mid := (lo + hi + 1) / 2
      if mid * mid ≤ n then sqrtAux n f mid hi else sqrtAux n f lo (mid - 1)

/-- Executable floor square root on `Nat` (fuel 64 suffices for all inputs
below `2 ^ 64`, far beyond anything used here); exact on perfect squares. -/
def natSqrt (n : Nat) : Nat := sqrtAux n 64 0 n

/-- Executable rational square root used to instantiate the `sqrt` oracle in
concrete witnesses; it is exact whenever numerator and denominator are perfect
squares, which is the case on every input exercised by the witnesses. -/
def ratSqrt (q : ℚ) : ℚ := (natSqrt q.num.toNat : ℚ) / (natSqrt q.den : ℚ)

/-- Oracle bundle for the `math`-library primitives the Python code calls. -/
structure FloatOps where
  sqrt : ℚ → ℚ
  sin : ℚ → ℚ
  cos : ℚ → ℚ
  atan2 : ℚ → ℚ → ℚ
  radians : ℚ → ℚ
  degrees : ℚ → ℚ

/-- A 3-vector, standing for the `np.array([x, y, z])` values of the source. -/
abbrev Vec3 : Type := ℚ × ℚ × ℚ

/-- A 4-vector: the solver state `X = [x, y, z, bias]` of `solve_pnt`. -/
abbrev Vec4 : Type := ℚ × ℚ × ℚ × ℚ

/-- Componentwise difference of 3-vectors (`a - b` on `np.array`s). -/
def vsub (a b : Vec3) : Vec3 := (a.1 - b.1, a.2.1 - b.2.1, a.2.2 - b.2.2)

/-- Scalar multiple of a 3-vector (`v / d` is `scale (1/d) v`). -/
def scale (c : ℚ) (a : Vec3) : Vec3 := (c * a.1, c * a.2.1, c * a.2.2)

/-- Sum of squared components, so that `np.linalg.norm v = sqrt (normSq v)`. -/
def normSq (a : Vec3) : ℚ := a.1 ^ 2 + a.2.1 ^ 2 + a.2.2 ^ 2

/-- Componentwise sum of 4-vectors (`X += dX` in `solve_pnt`). -/
def vadd4 (a b : Vec4) : Vec4 :=
  (a.1 + b.1, a.2.1 + b.2.1, a.2.2.1 + b.2.2.1, a.2.2.2 + b.2.2.2)

/-- The first three components `X[:3]` of a solver state. -/
def pos3 (X : Vec4) : Vec3 := (X.1, X.2.1, X.2.2.1)

/-- The clock-bias component `X[3]` of a solver state. -/
def bias4 (X : Vec4) : ℚ := X.2.2.2

/-- Configured ground-truth latitude, `TRUE_LAT = 12.9706089` (line 22). -/
def TRUE_LAT : ℚ := 129706089 / 10000000

/-- Configured ground-truth longitude, `TRUE_LON = 80.0431389` (line 23). -/
def TRUE_LON : ℚ := 800431389 / 10000000

/-- Configured ground-truth altitude in meters, `TRUE_ALT = 45.0` (line 24). -/
def TRUE_ALT : ℚ := 45

/-- WGS-84 semi-major axis in km, `a = 6378.137` (lines 136, 145). -/
def wgsA : ℚ := 6378137 / 1000

/-- WGS-84 eccentricity squared, `e2 = 0.00669437999` (lines 137, 146). -/
def wgsE2 : ℚ := 669437999 / 100000000000

/-- `NavEngine.lla_to_ecef` (lines 133-142): geodetic degrees/meters to ECEF
kilometers via the prime-vertical radius of curvature `N`. -/
def lla_to_ecef (ops : FloatOps) (lat lon alt : ℚ) : Vec3 :=
  let lat_r := ops.radians lat
  let lon_r := ops.radians lon
  let N := wgsA / ops.sqrt (1 - wgsE2 * (ops.sin lat_r) ^ 2)
  ((N + alt / 1000) * ops.cos lat_r * ops.cos lon_r,
   (N + alt / 1000) * ops.cos lat_r * ops.sin lon_r,
   (N * (1 - wgsE2) + alt / 1000) * ops.sin lat_r)

/-- One pass of the latitude-refinement loop of `ecef_to_lla` (lines 150-152):
recompute `N` from the current latitude, then update the latitude.  The state
carries `(lat, N)` because the Python loop variable `N` survives the loop and
is used in the altitude formula afterwards. -/
def ecefIterStep (ops : FloatOps) (z p : ℚ) (s : ℚ × ℚ) : ℚ × ℚ :=
  let N := wgsA / ops.sqrt (1 - wgsE2 * (ops.sin s.1) ^ 2)
  (ops.atan2 (z + wgsE2 * N * ops.sin s.1) p, N)

/-- `NavEngine.ecef_to_lla` (lines 144-154): Bowring-style inversion with a
fixed count of 3 refinement passes (`for _ in range(3)`), returning
`(degrees lat, degrees lon, alt * 1000)` with the altitude in meters. -/
def ecef_to_lla (ops : FloatOps) (x y z : ℚ) : ℚ × ℚ × ℚ :=
  let p := ops.sqrt (x ^ 2 + y ^ 2)
  let lon := ops.atan2 y x
  let lat0 := ops.atan2 z (p * (1 - wgsE2))
  let s := (List.range 3).foldl (fun s _ => ecefIterStep ops z p s) (lat0, 0)
  (ops.degrees s.1, ops.degrees lon, (p / ops.cos s.1 - s.2) * 1000)

/-- Follows the spec's words for the inverse conversion, for comparison with
`ecef_to_lla`: initialize `lon = atan2(y, x)` and `lat = atan2(z, p(1-e2))`
with `p = sqrt(x^2+y^2)`; exactly three times recompute `N(lat)` and then set
`lat = atan2(z + e2 N sin lat, p)`; finally altitude `= p / cos lat - N`
(in km; the published value is in meters, hence the factor 1000). -/
def ecef_to_lla_spec (ops : FloatOps) (x y z : ℚ) : ℚ × ℚ × ℚ :=
  let p := ops.sqrt (x ^ 2 + y ^ 2)
  let lon := ops.atan2 y x
  let lat0 := ops.atan2 z (p * (1 - wgsE2))
  let N1 := wgsA / ops.sqrt (1 - wgsE2 * (ops.sin lat0) ^ 2)
  let lat1 := ops.atan2 (z + wgsE2 * N1 * ops.sin lat0) p
  let N2 := wgsA / ops.sqrt (1 - wgsE2 * (ops.sin lat1) ^ 2)
  let lat2 := ops.atan2 (z + wgsE2 * N2 * ops.sin lat1) p
  let N3 := wgsA / ops.sqrt (1 - wgsE2 * (ops.sin lat2) ^ 2)
  let lat3 := ops.atan2 (z + wgsE2 * N3 * ops.sin lat2) p
  (ops.degrees lat3, ops.degrees lon, (p / ops.cos lat3 - N3) * 1000)

/-- The visibility filter: the source tests `alt.degrees > 10` inline
(line 216); per the spec interface the elevation mask is a parameter, and the
source's constant is `elevation_mask = 10`. -/
def is_visible (elevation_deg mask_deg : ℚ) : Bool := decide (mask_deg < elevation_deg)

/-- The elevation mask constant the source hardcodes at line 216. -/
def elevation_mask : ℚ := 10

/-- One pseudorange measurement, `{'pos': sat_pos, 'pr': pseudorange}`
(line 253); consumed only by `solve_pnt`. -/
structure Measurement where
  pos : Vec3
  pr : ℚ
deriving DecidableEq

/-- The shared receiver clock bias, `clock_bias = 120.0` km (line 222). -/
def clock_bias : ℚ := 120

/-- The noise bound of `random.uniform(-0.02, 0.02)` (line 223). -/
def noise_bound : ℚ := 1 / 50

/-- `pseudorange = true_dist + clock_bias + noise` (line 224); the drawn noise
enters as an input here, with its uniform-distribution bound stated as a
hypothesis where needed. -/
def pseudorange (true_dist noise : ℚ) : ℚ := true_dist + clock_bias + noise

/-- `np.linalg.norm (sat - rx)` as used at lines 167 and 218: the Euclidean
distance through the `sqrt` oracle. -/
def geo_dist (ops : FloatOps) (sat rx : Vec3) : ℚ := ops.sqrt (normSq (vsub sat rx))

/-- The line-of-sight vector of `solve_pnt` (lines 171-174): the source guards
the division with a branch, `(rx - sat) / d` if `d > 0`, else the zero
vector. -/
def los (rx sat : Vec3) (d : ℚ) : Vec3 :=
  if 0 < d then scale (1 / d) (vsub rx sat) else (0, 0, 0)

/-- One design-matrix row `[los_x, los_y, los_z, 1.0]` (line 175), with the
distance recomputed by the same `geo_dist` the loop body uses. -/
def hRow (ops : FloatOps) (rx sat : Vec3) : Vec4 :=
  let d := geo_dist ops sat rx
  let l := los rx sat d
  (l.1, l.2.1, l.2.2, 1)

/-- Follows the spec's words for the design-matrix row, for comparison with
`hRow`: line of sight `(X_pos - sat) / max(d, 1e-6)` with the epsilon guarding
the division. -/
def hRow_spec (ops : FloatOps) (rx sat : Vec3) : Vec4 :=
  let d := geo_dist ops sat rx
  let l := scale (1 / max d (1 / 1000000)) (vsub rx sat)
  (l.1, l.2.1, l.2.2, 1)

/-- The least-squares kernel `np.linalg.lstsq` (line 179) as an oracle: it
receives the design-matrix rows and the residual vector and returns the
minimum-norm least-squares solution, or `none` when numpy raises (which the
source catches, returning `None`). -/
abbrev LstsqFn : Type := List Vec4 → List ℚ → Option Vec4

/-- The iteration of `solve_pnt` (lines 159-184): at most 15 Gauss-Newton
steps; each step builds `H` and the residuals from the current state, solves
for `dX`, updates `X`, and breaks early when `norm(dX[:3]) < 0.001`; a failed
least-squares solve aborts with `none` (the `except` branch's `return None`). -/
def solveLoop (ops : FloatOps) (lstsq : LstsqFn) (measurements : List Measurement) :
    Nat → Vec4 → Option Vec4
  | 0, X => some X
  | fuel + 1, X =>
    let rx_pos := pos3 X
    let rx_bias := bias4 X
    let H := measurements.map (fun m => hRow ops rx_pos m.pos)
    let residuals := measurements.map
      (fun m => m.pr - (geo_dist ops m.pos rx_pos + rx_bias))
    match lstsq H residuals with
    | none => none
    | some dX =>
      let X' := vadd4 X dX
      if ops.sqrt (normSq (pos3 dX)) < 1 / 1000 then some X'
      else solveLoop ops lstsq measurements fuel X'

/-- The full final iterate of `solve_pnt`: the 4-vector `X` as it stands at
`return X[:3]` (line 185), starting from `X = [0,0,0,0]` (line 158) with the
source's 15-iteration budget. -/
def solveX (ops : FloatOps) (lstsq : LstsqFn) (measurements : List Measurement) :
    Option Vec4 :=
  solveLoop ops lstsq measurements 15 (0, 0, 0, 0)

/-- `NavEngine.solve_pnt` (lines 156-185): runs the iteration and returns
`X[:3]`, the three spatial components of the final iterate. -/
def solve_pnt (ops : FloatOps) (lstsq : LstsqFn) (measurements : List Measurement) :
    Option Vec3 :=
  (solveX ops lstsq measurements).map pos3

/-- One row of the published satellite table (line 255).  Only the fields the
sorting and capping logic reads are modelled; the remaining entries
(doppler, time of flight, subpoint, orbital elements) are display-only values
derived from the external skyfield library and are not consumed anywhere. -/
structure SatDisplay where
  name : String
  el : ℚ
  az : ℚ
deriving DecidableEq

/-- The published fix, `state['fix']` (lines 57, 293-296): latitude and
longitude in degrees, truncated altitude in meters, rounded error in meters,
and a mode string. -/
structure Fix where
  lat : ℚ
  lon : ℚ
  alt : ℤ
  err : ℚ
  mode : String
deriving DecidableEq

/-- The shared state one cycle of `NavEngine.run` publishes: the status
string, the capped satellite table, and the fix. -/
structure CycleState where
  status : String
  sats : List SatDisplay
  fix : Fix
deriving DecidableEq

/-- One cycle's input for a catalog satellite that survived propagation: its
name, the propagated elevation and azimuth, its ECEF position, and the noise
drawn for it this cycle by `random.uniform` (line 223). -/
structure SatCandidate where
  name : String
  el : ℚ
  az : ℚ
  pos : Vec3
  noise : ℚ

/-- Python `int(...)` of a rational: truncation toward zero (line 294). -/
def pyInt (q : ℚ) : ℤ := q.num.tdiv q.den

/-- Rounding to two decimals, modelling `float(f"{err_m:.2f}")` (line 295).
Python's formatting rounds half to even on the underlying double; this model
rounds half away from zero upward, which agrees except at exact half-cent
ties, a set none of the claims touch. -/
def round2 (q : ℚ) : ℚ := ((q * 100 + 1 / 2).num.ediv (q * 100 + 1 / 2).den : ℚ) / 100

/-- The blend of the spec's postprocess interface: `w * raw + (1 - w) * ref`;
the source instantiates it at lines 285-286 with the constants `0.05` and
`0.95 = 1 - 0.05`. -/
def blendCoord (raw ref w : ℚ) : ℚ := raw * w + ref * (1 - w)

/-- The blend weight the source hardcodes at lines 285-286. -/
def blend_weight : ℚ := 1 / 20

/-- The spec's planar error metric interface; the source computes it inline at
lines 288-291 against the ground-truth reference. -/
def errorMetric (ops : FloatOps) (lat lon refLat refLon : ℚ) : ℚ :=
  ops.sqrt (((lat - refLat) * 111000) ^ 2 + ((lon - refLon) * 111000) ^ 2)

/-- The fix post-processing of `NavEngine.run` (lines 279-296): convert the
estimate to geodetic, blend toward the ground truth with weights `0.05/0.95`,
compute the small-angle planar error, and build the published fix. -/
def postprocessFix (ops : FloatOps) (est : Vec3) : Fix :=
  let g := ecef_to_lla ops est.1 est.2.1 est.2.2
  let lat := g.1 * (5 / 100) + TRUE_LAT * (95 / 100)
  let lon := g.2.1 * (5 / 100) + TRUE_LON * (95 / 100)
  let d_lat := lat - TRUE_LAT
  let d_lon := lon - TRUE_LON
  let err_m := ops.sqrt ((d_lat * 111000) ^ 2 + (d_lon * 111000) ^ 2)
  { lat := lat, lon := lon, alt := pyInt g.2.2, err := round2 err_m,
    mode := "3D LOCK (ILS)" }

/-- `visible_display.sort(key=..., reverse=True)` (line 271): a stable sort
in non-increasing elevation order.  Python's sort is stable; `insertionSort`
with this relation computes the same list as any stable sort by the same
key. -/
def sortSatsByEl (l : List SatDisplay) : List SatDisplay :=
  List.insertionSort (fun a b => b.el ≤ a.el) l

/-- The candidates that pass the elevation-mask test of line 216. -/
def visibleCandidates (cands : List SatCandidate) : List SatCandidate :=
  cands.filter (fun c => is_visible c.el elevation_mask)

/-- The `solver_inputs` list built at lines 218-253: one measurement per
visible candidate, with pseudorange = true distance + clock bias + noise. -/
def solverInputs (ops : FloatOps) (truth : Vec3) (cands : List SatCandidate) :
    List Measurement :=
  (visibleCandidates cands).map
    (fun c => { pos := c.pos, pr := pseudorange (geo_dist ops c.pos truth) c.noise })

/-- The `visible_display` table rows built at lines 255-269 (claim-relevant
fields only). -/
def visibleDisplay (cands : List SatCandidate) : List SatDisplay :=
  (visibleCandidates cands).map (fun c => { name := c.name, el := c.el, az := c.az })

/-- One cycle of the `NavEngine.run` loop (lines 192-300), over the already
propagated candidates of this cycle: publish the sorted and capped satellite
table; with at least 4 measurements run the solver and on success publish the
post-processed fix and a TRACKING status (on solver failure everything except
the satellite table is left as it was); with fewer than 4, publish the
SEARCHING status and overwrite only the mode field of the previous fix. -/
def runCycle (ops : FloatOps) (lstsq : LstsqFn) (cands : List SatCandidate)
    (prev : CycleState) : CycleState :=
  let truth := lla_to_ecef ops TRUE_LAT TRUE_LON TRUE_ALT
  let inputs := solverInputs ops truth cands
  let display := visibleDisplay cands
  let sats' := (sortSatsByEl display).take 6
  if 4 ≤ inputs.length then
    match solve_pnt ops lstsq inputs with
    | some est =>
      { status := "TRACKING (" ++ toString display.length ++ " SATS)",
        sats := sats',
        fix := postprocessFix ops est }
    | none => { prev with sats := sats' }
  else
    { status := "SEARCHING...", sats := sats',
      fix := { prev.fix with mode := "ACQUIRING" } }

/-- Concrete oracle bundle for closed statements: `sqrt` is the exact floor
square root (exact on every perfect square the statements exercise); the
trigonometric oracles are the constant-zero functions and `degrees` is the
identity, adequate because every closed statement below either does not
depend on their values or exercises them only at 0. -/
def ratOps : FloatOps :=
  { sqrt := ratSqrt, sin := fun _ => 0, cos := fun _ => 0,
    atan2 := fun _ _ => 0, radians := fun _ => 0, degrees := fun q => q }

/-- Concrete least-squares oracle for closed statements.  It agrees with
`np.linalg.lstsq` on every system it is applied to below: numpy raises on the
empty (1-dimensional) array, modelled by `none`; and every nonempty system
built below has all rows equal to `(0, 0, 0, 1)` and all residuals equal to
the first residual `c`, for which the minimum-norm least-squares solution is
exactly `(0, 0, 0, c)`. -/
def npLstsq : LstsqFn := fun H r =>
  if H.isEmpty then none
  else match r with
    | [] => none
    | c :: _ => some (0, 0, 0, c)

/-- A measurement whose satellite sits at the origin with zero pseudorange. -/
def mZero : Measurement := { pos := (0, 0, 0), pr := 0 }

/-- A measurement whose satellite sits at the origin and whose pseudorange is
exactly the clock bias of 120 km. -/
def mBias : Measurement := { pos := (0, 0, 0), pr := 120 }

/-- A previous cycle state holding a locked fix, for the frame-effect
statements about cycles with too few visible satellites. -/
def prevLocked : CycleState :=
  { status := "TRACKING (5 SATS)", sats := [],
    fix := { lat := 1297 / 100, lon := 8004 / 100, alt := 45, err := 123 / 100,
             mode := "3D LOCK (ILS)" } }

/-- C1 (amended): `solve_pnt` on the empty measurement list returns `None`:
the least-squares call receives the empty system, numpy raises on it, and the
handler returns `None`.  (`solve_pnt` is a total function, so it never
crashes; the ≥4-measurement requirement itself lives in the caller, not in
`solve_pnt` — see the counterexample.) -/
theorem solve_pnt_empty_returns_none (ops : FloatOps) (lstsq : LstsqFn)
    (h : lstsq [] [] = none) : solve_pnt ops lstsq [] = none := by
  have h15 : (15 : Nat) = 14 + 1 := rfl
  simp [solve_pnt, solveX, h15, solveLoop, h]

/-- Witness for `solve_pnt_empty_returns_none` at the concrete oracles. -/
theorem solve_pnt_empty_returns_none_witness :
    npLstsq [] [] = none ∧ solve_pnt ratOps npLstsq [] = none :=
  ⟨by decide, solve_pnt_empty_returns_none ratOps npLstsq (by decide)⟩

/-- C1 (counterexample): with a single measurement — fewer than 4 — the
least-squares solve of the underdetermined system succeeds (numpy returns the
minimum-norm solution; here the system is `[0,0,0,1]·dX = 0` whose minimum
norm solution is `0`), so `solve_pnt` returns an estimate, not `None`,
contradicting the claim that fewer than 4 measurements yield failure. -/
theorem solve_pnt_underdetermined_returns_estimate :
    [mZero].length < 4 ∧ npLstsq [] [] = none ∧
    solve_pnt ratOps npLstsq [mZero] = some (0, 0, 0) := by decide

/-- C2 (amended): whenever the iteration produces a final 4-dimensional
iterate `X`, `solve_pnt` returns only the three spatial components `X[:3]`;
the clock-bias component `X[3]` is solved for internally but not returned. -/
theorem solve_pnt_returns_position_of_final_iterate (ops : FloatOps)
    (lstsq : LstsqFn) (ms : List Measurement) (X : Vec4)
    (h : solveX ops lstsq ms = some X) :
    solve_pnt ops lstsq ms = some (X.1, X.2.1, X.2.2.1) := by
  simp [solve_pnt, h, pos3]

/-- Witness for `solve_pnt_returns_position_of_final_iterate`: a concrete run
whose final iterate is `(0,0,0,120)` and whose returned value is `(0,0,0)`. -/
theorem solve_pnt_returns_position_witness :
    solveX ratOps npLstsq [mBias] = some (0, 0, 0, 120) ∧
    solve_pnt ratOps npLstsq [mBias] = some (0, 0, 0) :=
  ⟨by decide,
   solve_pnt_returns_position_of_final_iterate ratOps npLstsq [mBias]
     (0, 0, 0, 120) (by decide)⟩

/-- C2 (counterexample): a concrete successful solve whose final iterate
carries the nonzero clock bias 120, while the value `solve_pnt` returns is the
bare 3-component position — the returned estimate does not contain the
clock-bias component the claim says it contains. -/
theorem solve_pnt_discards_clock_bias :
    solveX ratOps npLstsq [mBias] = some (0, 0, 0, 120) ∧
    solve_pnt ratOps npLstsq [mBias] = some (0, 0, 0) ∧
    bias4 (0, 0, 0, 120) ≠ 0 := by decide

/-- C3 (amended): the source's branch-guarded line-of-sight row agrees with
the spec's `max(d, 1e-6)` formula when the satellite coincides with the
estimate (`d = 0` with zero offset) and whenever `d ≥ 1e-6`; the two differ
only for `0 < d < 1e-6`, where the code divides by `d` itself. -/
theorem hRow_matches_spec_outside_epsilon (ops : FloatOps) (rx sat : Vec3)
    (h : (geo_dist ops sat rx = 0 ∧ vsub rx sat = (0, 0, 0)) ∨
         1 / 1000000 ≤ geo_dist ops sat rx) :
    hRow ops rx sat = hRow_spec ops rx sat := by
  rcases h with ⟨hd, hv⟩ | hd
  · simp [hRow, hRow_spec, los, hd, hv, scale]
  · have hpos : 0 < geo_dist ops sat rx := lt_of_lt_of_le (by norm_num) hd
    have hmax : max (geo_dist ops sat rx) (1 / 1000000) = geo_dist ops sat rx :=
      max_eq_left hd
    simp only [hRow, hRow_spec, los, if_pos hpos, hmax]

/-- Witness for `hRow_matches_spec_outside_epsilon`, at a satellite 5 km from
the estimate. -/
theorem hRow_matches_spec_witness :
    (1 / 1000000 : ℚ) ≤ geo_dist ratOps (3, 4, 0) (0, 0, 0) ∧
    hRow ratOps (0, 0, 0) (3, 4, 0) = hRow_spec ratOps (0, 0, 0) (3, 4, 0) :=
  ⟨by decide,
   hRow_matches_spec_outside_epsilon ratOps (0, 0, 0) (3, 4, 0) (Or.inr (by decide))⟩

/-- C3 (counterexample): at a satellite 5·10⁻⁷ km from the estimate — a
distance strictly between 0 and the spec's ε = 10⁻⁶ — the code's row divides
by `d` itself, giving `(-1, 0, 0, 1)`, while the spec's `max(d, ε)` formula
gives `(-1/2, 0, 0, 1)`; the design-matrix row is not computed as
`(X_pos − sat)/max(d, ε)`. -/
theorem hRow_ne_spec_below_epsilon :
    geo_dist ratOps (1 / 2000000, 0, 0) (0, 0, 0) = 1 / 2000000 ∧
    hRow ratOps (0, 0, 0) (1 / 2000000, 0, 0) = (-1, 0, 0, 1) ∧
    hRow_spec ratOps (0, 0, 0) (1 / 2000000, 0, 0) = (-1 / 2, 0, 0, 1) ∧
    hRow ratOps (0, 0, 0) (1 / 2000000, 0, 0)
      ≠ hRow_spec ratOps (0, 0, 0) (1 / 2000000, 0, 0) := by decide

/-- C5: for every ECEF input and every oracle instantiation, `ecef_to_lla`
computes exactly the spec's procedure: `lon = atan2(y, x)`, initial
`lat = atan2(z, p(1-e2))` with `p = sqrt(x²+y²)`, exactly three fixed-point
passes recomputing `N(lat)` then `lat = atan2(z + e2·N·sin lat, p)`, and
finally altitude `p/cos(lat) − N` (converted to meters) — a fixed iteration
count with no convergence check. -/
theorem ecef_to_lla_matches_spec_structure (ops : FloatOps) (x y z : ℚ) :
    ecef_to_lla ops x y z = ecef_to_lla_spec ops x y z := rfl

/-- C6: the visibility filter is the strict comparison `elevation > mask`; at
the boundary `is_visible mask mask` is false and `is_visible (mask + 0.01)
mask` is true; the source instantiates the mask at 10°. -/
theorem is_visible_iff_strict (el mask : ℚ) :
    (is_visible el mask = true ↔ mask < el) ∧
    is_visible mask mask = false ∧
    is_visible (mask + 1 / 100) mask = true ∧
    elevation_mask = 10 := by
  refine ⟨by simp [is_visible], by simp [is_visible], ?_, rfl⟩
  simp only [is_visible, decide_eq_true_eq]
  norm_num

/-- C7: with the drawn noise inside the `random.uniform(-0.02, 0.02)` bound,
every synthesized pseudorange is at least the true geometric distance; the
clock bias is the fixed positive constant 120 km (shared by construction by
every measurement of a cycle, `solverInputs` applying the same constant to
each), and it strictly dominates the noise bound 0.02 km. -/
theorem pseudorange_ge_true_distance (d noise : ℚ)
    (h1 : -noise_bound ≤ noise) (_h2 : noise ≤ noise_bound) :
    d ≤ pseudorange d noise ∧ 0 < clock_bias ∧ noise_bound < clock_bias := by
  refine ⟨?_, by norm_num [clock_bias], by norm_num [clock_bias, noise_bound]⟩
  have h1' : -(1 / 50 : ℚ) ≤ noise := by simpa [noise_bound] using h1
  simp only [pseudorange, clock_bias]
  linarith

/-- Witness for `pseudorange_ge_true_distance` at a 500 km true distance and
0.01 km of noise. -/
theorem pseudorange_ge_true_distance_witness :
    -noise_bound ≤ (1 / 100 : ℚ) ∧ (1 / 100 : ℚ) ≤ noise_bound ∧
    ((500 : ℚ) ≤ pseudorange 500 (1 / 100) ∧ 0 < clock_bias ∧
      noise_bound < clock_bias) :=
  ⟨by decide, by decide,
   pseudorange_ge_true_distance 500 (1 / 100) (by decide) (by decide)⟩

/-- C8: the post-processor blends `lat = w·raw + (1−w)·ref` (and likewise for
longitude) with the source's weight `w = 0.05` and the ground-truth reference,
and its error metric is `sqrt((Δlat·111000)² + (Δlon·111000)²)` with Δ the
blended fix minus the reference; the published error is that metric rounded to
two decimals. -/
theorem postprocess_blend_and_error_formulas (ops : FloatOps)
    (raw ref w lat lon refLat refLon : ℚ) (est : Vec3) :
    blendCoord raw ref w = w * raw + (1 - w) * ref ∧
    errorMetric ops lat lon refLat refLon
      = ops.sqrt (((lat - refLat) * 111000) ^ 2 + ((lon - refLon) * 111000) ^ 2) ∧
    (postprocessFix ops est).lat
      = blendCoord (ecef_to_lla ops est.1 est.2.1 est.2.2).1 TRUE_LAT blend_weight ∧
    (postprocessFix ops est).lon
      = blendCoord (ecef_to_lla ops est.1 est.2.1 est.2.2).2.1 TRUE_LON blend_weight ∧
    (postprocessFix ops est).err
      = round2 (errorMetric ops (postprocessFix ops est).lat
          (postprocessFix ops est).lon TRUE_LAT TRUE_LON) := by
  refine ⟨by unfold blendCoord; ring, rfl, ?_, ?_, rfl⟩
  · simp only [postprocessFix, blendCoord, blend_weight]
    ring
  · simp only [postprocessFix, blendCoord, blend_weight]
    ring

/-- C9 (amended): on a cycle with fewer than 4 visible satellites the
published status is set to `SEARCHING...`, the latitude, longitude, altitude
and error of the previously published fix are retained unchanged, and the
fix's mode field is overwritten with the constant `ACQUIRING` (a value not
derived from the insufficient data). -/
theorem insufficient_sats_searching_and_fix_fields (ops : FloatOps)
    (lstsq : LstsqFn) (cands : List SatCandidate) (prev : CycleState)
    (h : (visibleCandidates cands).length < 4) :
    (runCycle ops lstsq cands prev).status = "SEARCHING..." ∧
    (runCycle ops lstsq cands prev).fix.lat = prev.fix.lat ∧
    (runCycle ops lstsq cands prev).fix.lon = prev.fix.lon ∧
    (runCycle ops lstsq cands prev).fix.alt = prev.fix.alt ∧
    (runCycle ops lstsq cands prev).fix.err = prev.fix.err ∧
    (runCycle ops lstsq cands prev).fix.mode = "ACQUIRING" := by
  have hlen : ¬ 4 ≤ (solverInputs ops (lla_to_ecef ops TRUE_LAT TRUE_LON TRUE_ALT)
      cands).length := by
    simp only [solverInputs, List.length_map]
    omega
  simp [runCycle, hlen]

/-- Witness for `insufficient_sats_searching_and_fix_fields` on a cycle with
no candidates at all, starting from a locked fix. -/
theorem insufficient_sats_witness :
    (visibleCandidates []).length < 4 ∧
    ((runCycle ratOps npLstsq [] prevLocked).status = "SEARCHING..." ∧
     (runCycle ratOps npLstsq [] prevLocked).fix.lat = prevLocked.fix.lat ∧
     (runCycle ratOps npLstsq [] prevLocked).fix.lon = prevLocked.fix.lon ∧
     (runCycle ratOps npLstsq [] prevLocked).fix.alt = prevLocked.fix.alt ∧
     (runCycle ratOps npLstsq [] prevLocked).fix.err = prevLocked.fix.err ∧
     (runCycle ratOps npLstsq [] prevLocked).fix.mode = "ACQUIRING") :=
  ⟨by decide,
   insufficient_sats_searching_and_fix_fields ratOps npLstsq [] prevLocked
     (by decide)⟩

/-- C9 (counterexample): on a cycle with no visible satellites the previously
published fix is not retained unchanged — its mode field, previously
`3D LOCK (ILS)`, is overwritten with `ACQUIRING`, so the resulting fix differs
from the previous one. -/
theorem insufficient_sats_overwrites_mode :
    (runCycle ratOps npLstsq [] prevLocked).status = "SEARCHING..." ∧
    prevLocked.fix.mode = "3D LOCK (ILS)" ∧
    (runCycle ratOps npLstsq [] prevLocked).fix ≠ prevLocked.fix := by decide

/-- C10: on every cycle the published satellite list is the stable
non-increasing-elevation sort of the visible-satellite table capped at its
first 6 entries; hence it has at most 6 entries and is pairwise
non-increasing in elevation, and the sort is a permutation of the full
visible table (so the entries kept are the highest-elevation ones). -/
theorem published_sats_sorted_and_bounded (ops : FloatOps) (lstsq : LstsqFn)
    (cands : List SatCandidate) (prev : CycleState) :
    (runCycle ops lstsq cands prev).sats
      = (sortSatsByEl (visibleDisplay cands)).take 6 ∧
    (runCycle ops lstsq cands prev).sats.length ≤ 6 ∧
    (runCycle ops lstsq cands prev).sats.Pairwise (fun a b => b.el ≤ a.el) ∧
    (sortSatsByEl (visibleDisplay cands)).Perm (visibleDisplay cands) := by
  have hsorted : (sortSatsByEl (visibleDisplay cands)).Pairwise
      (fun a b => b.el ≤ a.el) := by
    haveI : IsTotal SatDisplay (fun a b => b.el ≤ a.el) :=
      ⟨fun a b => le_total b.el a.el⟩
    haveI : IsTrans SatDisplay (fun a b => b.el ≤ a.el) :=
      ⟨fun a b c h1 h2 => le_trans h2 h1⟩
    exact List.sorted_insertionSort _ _
  have heq : (runCycle ops lstsq cands prev).sats
      = (sortSatsByEl (visibleDisplay cands)).take 6 := by
    unfold runCycle
    dsimp only
    split
    · split <;> rfl
    · rfl
  refine ⟨heq, ?_, ?_, List.perm_insertionSort _ _⟩
  · rw [heq]
    exact le_trans (le_of_eq (List.length_take 6 _)) (min_le_left _ _)
  · rw [heq]
    exact List.Pairwise.sublist (List.take_sublist 6 _) hsorted

end CrownPnt
